import Mathlib

/-!
Verification of the time-based log-rotation writer of x3a-tech/logit-go.

The core component is `TimeRotatingWriter` (src/unnamed/part_000): a
mutex-protected decorator around a rotation-capable sink
(`lumberjack.Logger`) that forces a rotation once a configured wall-clock
interval has elapsed since the last rotation, then delegates the write.

The repository file contains two versions of the `Write` method:
  * an early variant (part_000 lines 26-38): the rotation condition is
    `time.Since(lastRotation) >= rotationTime` with no positivity guard,
    and a rotation failure returns `(0, err)` immediately without writing;
  * the final variant (part_000 lines 71-96): the condition is guarded by
    `rotationTime > 0`, and on rotation failure the write is still
    attempted against the pre-rotation sink (write-preferring policy),
    with the two error messages combined when both fail.

Embedding choices:
  * `time.Time` and `time.Duration` are modelled as `Int` (nanoseconds);
    `time.Since(t)` at a call made when `time.Now()` returns `now` is
    `now - t`.  `Write` observes the clock twice (once in the condition,
    once in `lastRotation = time.Now()`), so the model takes two clock
    readings `now₁` and `now₂`.
  * the embedded `lumberjack.Logger` is modelled by the responses its
    three operations would give during one call (`Sink`), plus a trace of
    the operations actually invoked on it (`SinkOp`), so that claims about
    "rotate is invoked / not invoked" are about the trace.
  * Go `error` values are modelled as `Option String` (the message);
    `fmt.Errorf` with `%v` interpolates the message into the format string.
-/

/-- One operation invoked on the underlying rotation-capable sink. -/
inductive SinkOp where
  | rotate : SinkOp
  | write : List Nat → SinkOp
  | close : SinkOp
deriving DecidableEq, Repr

/-- The embedded `lumberjack.Logger`, modelled by the responses its
operations return during one call: `rotateErr` is what `Rotate()` returns,
`(writeN, writeErr)` is what `Write(p)` returns, `closeErr` is what
`Close()` returns. -/
structure Sink where
  rotateErr : Option String
  writeN : Nat
  writeErr : Option String
  closeErr : Option String
deriving DecidableEq, Repr

/-- The `TimeRotatingWriter` struct (part_000 lines 50-55): the embedded
`lumberjack.Logger`, the configured `rotationTime` duration and the
`lastRotation` timestamp.  The mutex serializes access and has no pure
content. -/
structure TimeRotatingWriter where
  logger : Sink
  rotationTime : Int
  lastRotation : Int
deriving DecidableEq, Repr

/-- Constructor `NewTimeRotatingWriter` (part_000 lines 61-67): stores the logger and
the interval and initializes `lastRotation` to the current time. -/
def NewTimeRotatingWriter (logger : Sink) (rotationTime : Int) (now : Int) :
    TimeRotatingWriter :=
  { logger := logger, rotationTime := rotationTime, lastRotation := now }

/-- Result of one `Write` call: the returned byte count, the returned
error, the writer state after the call, and the sequence of operations
the underlying sink observed. -/
structure WriteResult where
  n : Nat
  err : Option String
  w : TimeRotatingWriter
  trace : List SinkOp
deriving DecidableEq, Repr

/-- The message built at part_000 line 87:
`fmt.Errorf("ошибка записи после ошибки ротации: %v (ошибка ротации: %v)", writeErr, err)`. -/
def writeAfterRotateMsg (werr rerr : String) : String :=
  "ошибка записи после ошибки ротации: " ++ (werr ++ (" (ошибка ротации: " ++ (rerr ++ ")")))

/-- The message built at part_000 line 89:
`fmt.Errorf("ошибка ротации лог-файла: %v", err)`. -/
def rotateFailMsg (rerr : String) : String :=
  "ошибка ротации лог-файла: " ++ (rerr ++ "")

/-- The final `Write` (part_000 lines 71-96).  `now₁` is the reading of
`time.Now()` inside `time.Since` on line 77; `now₂` is the reading on
line 91. -/
def TimeRotatingWriter.Write (w : TimeRotatingWriter) (now₁ now₂ : Int)
    (p : List Nat) : WriteResult :=
  if w.rotationTime > 0 ∧ now₁ - w.lastRotation ≥ w.rotationTime then
    match w.logger.rotateErr with
    | some rerr =>
      -- rotation failed: still attempt the write against the old sink
      match w.logger.writeErr with
      | some werr =>
        { n := 0, err := some (writeAfterRotateMsg werr rerr), w := w,
          trace := [SinkOp.rotate, SinkOp.write p] }
      | none =>
        { n := w.logger.writeN, err := some (rotateFailMsg rerr), w := w,
          trace := [SinkOp.rotate, SinkOp.write p] }
    | none =>
      -- rotation succeeded: update lastRotation, then delegate the write
      { n := w.logger.writeN, err := w.logger.writeErr,
        w := { w with lastRotation := now₂ },
        trace := [SinkOp.rotate, SinkOp.write p] }
  else
    { n := w.logger.writeN, err := w.logger.writeErr, w := w,
      trace := [SinkOp.write p] }

/-- The early `Write` variant (part_000 lines 26-38): no `rotationTime > 0`
guard, and a rotation failure returns `(0, err)` without writing. -/
def TimeRotatingWriter.WriteEarly (w : TimeRotatingWriter) (now₁ now₂ : Int)
    (p : List Nat) : WriteResult :=
  if now₁ - w.lastRotation ≥ w.rotationTime then
    match w.logger.rotateErr with
    | some rerr =>
      { n := 0, err := some rerr, w := w, trace := [SinkOp.rotate] }
    | none =>
      { n := w.logger.writeN, err := w.logger.writeErr,
        w := { w with lastRotation := now₂ },
        trace := [SinkOp.rotate, SinkOp.write p] }
  else
    { n := w.logger.writeN, err := w.logger.writeErr, w := w,
      trace := [SinkOp.write p] }

/-- Method `Close` (part_000 lines 109-113): under the lock, delegate to the
embedded logger's `Close` and return its error unchanged. -/
def TimeRotatingWriter.Close (w : TimeRotatingWriter) :
    Option String × List SinkOp :=
  (w.logger.closeErr, [SinkOp.close])

/-- A sequence of `Write` calls (each with its two clock readings and
payload), threading the writer state and concatenating the sink traces. -/
def runWrites (w : TimeRotatingWriter) :
    List (Int × Int × List Nat) → TimeRotatingWriter × List SinkOp
  | [] => (w, [])
  | (n₁, n₂, p) :: rest =>
    let r := w.Write n₁ n₂ p
    let rec_ := runWrites r.w rest
    (rec_.1, r.trace ++ rec_.2)

/-! ## Helper lemmas -/

/-- With a non-positive interval, the guarded `Write` takes the plain
delegation path: no rotation, state unchanged. -/
theorem Write_inert (w : TimeRotatingWriter) (now₁ now₂ : Int) (p : List Nat)
    (h : w.rotationTime ≤ 0) :
    w.Write now₁ now₂ p =
      { n := w.logger.writeN, err := w.logger.writeErr, w := w,
        trace := [SinkOp.write p] } := by
  have hcond : ¬ (w.rotationTime > 0 ∧ now₁ - w.lastRotation ≥ w.rotationTime) := by
    intro hc
    omega
  simp [TimeRotatingWriter.Write, hcond]

/-! ## Claims -/

/-- C1: for a configured interval > 0, a `Write` call at a time with
elapsed < interval does not invoke `rotate`; a call with
elapsed >= interval invokes `rotate` exactly once, before the write is
delegated to the sink. -/
theorem write_interval_gating (w : TimeRotatingWriter) (now₁ now₂ : Int)
    (p : List Nat) (h : w.rotationTime > 0) :
    (now₁ - w.lastRotation < w.rotationTime →
      (w.Write now₁ now₂ p).trace.count SinkOp.rotate = 0) ∧
    (now₁ - w.lastRotation ≥ w.rotationTime →
      (w.Write now₁ now₂ p).trace = [SinkOp.rotate, SinkOp.write p]) := by
  constructor
  · intro hlt
    have hcond : ¬ (w.rotationTime > 0 ∧ now₁ - w.lastRotation ≥ w.rotationTime) := by
      intro hc
      omega
    simp [TimeRotatingWriter.Write, hcond]
  · intro hge
    have hcond : w.rotationTime > 0 ∧ now₁ - w.lastRotation ≥ w.rotationTime := ⟨h, hge⟩
    cases hr : w.logger.rotateErr with
    | some rerr =>
      cases hw : w.logger.writeErr <;> simp [TimeRotatingWriter.Write, hcond, hr, hw]
    | none => simp [TimeRotatingWriter.Write, hcond, hr]

/-- Witness for C1 at a concrete writer: interval 10, last rotation at 0,
calls observed at times 5 (no rotation) and 15 (one rotation). -/
theorem write_interval_gating_witness :
    ((⟨⟨none, 3, none, none⟩, 10, 0⟩ : TimeRotatingWriter).rotationTime > 0) ∧
    (((15 : Int) - (⟨⟨none, 3, none, none⟩, 10, 0⟩ : TimeRotatingWriter).lastRotation <
        (⟨⟨none, 3, none, none⟩, 10, 0⟩ : TimeRotatingWriter).rotationTime →
      ((⟨⟨none, 3, none, none⟩, 10, 0⟩ : TimeRotatingWriter).Write 15 16 [97]).trace.count
        SinkOp.rotate = 0) ∧
     ((15 : Int) - (⟨⟨none, 3, none, none⟩, 10, 0⟩ : TimeRotatingWriter).lastRotation ≥
        (⟨⟨none, 3, none, none⟩, 10, 0⟩ : TimeRotatingWriter).rotationTime →
      ((⟨⟨none, 3, none, none⟩, 10, 0⟩ : TimeRotatingWriter).Write 15 16 [97]).trace =
        [SinkOp.rotate, SinkOp.write [97]])) :=
  ⟨by decide, write_interval_gating ⟨⟨none, 3, none, none⟩, 10, 0⟩ 15 16 [97] (by decide)⟩

/-- C7: `Close` returns exactly the error (or nil) returned by the
underlying sink's close operation, with no wrapping, and invokes only the
sink's close. -/
theorem close_delegates (w : TimeRotatingWriter) :
    (w.Close).1 = w.logger.closeErr ∧ (w.Close).2 = [SinkOp.close] :=
  ⟨rfl, rfl⟩

/-- C8: for every sink and every interval value (including zero and
negative), construction is a total function (never fails) and the
resulting writer has `lastRotation` initialized to the construction-time
clock reading, with the given interval and sink stored unchanged. -/
theorem new_writer_initialized (logger : Sink) (rotationTime now : Int) :
    (NewTimeRotatingWriter logger rotationTime now).lastRotation = now ∧
    (NewTimeRotatingWriter logger rotationTime now).rotationTime = rotationTime ∧
    (NewTimeRotatingWriter logger rotationTime now).logger = logger :=
  ⟨rfl, rfl, rfl⟩

/-- C2: when rotation is due, `rotate` fails and the fallback write
succeeds, `Write` returns the byte count reported by that write together
with a non-nil error that carries the rotation-failure message,
`lastRotation` (indeed the whole writer state) is unchanged, and a later
`Write` past the interval invokes `rotate` again. -/
theorem write_preserving_on_rotation_failure
    (w : TimeRotatingWriter) (now₁ now₂ now₁' now₂' : Int)
    (p p' : List Nat) (rerr : String)
    (hpos : w.rotationTime > 0)
    (hdue : now₁ - w.lastRotation ≥ w.rotationTime)
    (hrot : w.logger.rotateErr = some rerr)
    (hwr : w.logger.writeErr = none)
    (hdue' : now₁' - w.lastRotation ≥ w.rotationTime) :
    (w.Write now₁ now₂ p).n = w.logger.writeN ∧
    (w.Write now₁ now₂ p).err = some (rotateFailMsg rerr) ∧
    (∃ s t, rotateFailMsg rerr = s ++ (rerr ++ t)) ∧
    (w.Write now₁ now₂ p).w = w ∧
    ((w.Write now₁ now₂ p).w.Write now₁' now₂' p').trace.count SinkOp.rotate = 1 := by
  have hcond : w.rotationTime > 0 ∧ now₁ - w.lastRotation ≥ w.rotationTime := ⟨hpos, hdue⟩
  have hres : w.Write now₁ now₂ p =
      { n := w.logger.writeN, err := some (rotateFailMsg rerr), w := w,
        trace := [SinkOp.rotate, SinkOp.write p] } := by
    simp [TimeRotatingWriter.Write, hcond, hrot, hwr]
  refine ⟨by rw [hres], by rw [hres], ⟨"ошибка ротации лог-файла: ", "", rfl⟩, by rw [hres], ?_⟩
  rw [hres]
  have hcond' : w.rotationTime > 0 ∧ now₁' - w.lastRotation ≥ w.rotationTime := ⟨hpos, hdue'⟩
  simp [TimeRotatingWriter.Write, hcond', hrot, hwr]

/-- Witness for C2: interval 10, last rotation at 0, rotate fails with
message "rb", sink write reports 4 bytes and no error; the call at time 10
returns (4, rotation error) without touching `lastRotation`, and the call
at time 25 rotates again. -/
theorem write_preserving_on_rotation_failure_witness :
    ((⟨⟨some "rb", 4, none, none⟩, 10, 0⟩ : TimeRotatingWriter).rotationTime > 0) ∧
    ((10 : Int) - (⟨⟨some "rb", 4, none, none⟩, 10, 0⟩ : TimeRotatingWriter).lastRotation ≥
      (⟨⟨some "rb", 4, none, none⟩, 10, 0⟩ : TimeRotatingWriter).rotationTime) ∧
    ((⟨⟨some "rb", 4, none, none⟩, 10, 0⟩ : TimeRotatingWriter).logger.rotateErr = some "rb") ∧
    ((⟨⟨some "rb", 4, none, none⟩, 10, 0⟩ : TimeRotatingWriter).logger.writeErr = none) ∧
    ((25 : Int) - (⟨⟨some "rb", 4, none, none⟩, 10, 0⟩ : TimeRotatingWriter).lastRotation ≥
      (⟨⟨some "rb", 4, none, none⟩, 10, 0⟩ : TimeRotatingWriter).rotationTime) ∧
    (((⟨⟨some "rb", 4, none, none⟩, 10, 0⟩ : TimeRotatingWriter).Write 10 11 [65]).n =
      (⟨⟨some "rb", 4, none, none⟩, 10, 0⟩ : TimeRotatingWriter).logger.writeN ∧
     ((⟨⟨some "rb", 4, none, none⟩, 10, 0⟩ : TimeRotatingWriter).Write 10 11 [65]).err =
      some (rotateFailMsg "rb") ∧
     (∃ s t, rotateFailMsg "rb" = s ++ ("rb" ++ t)) ∧
     ((⟨⟨some "rb", 4, none, none⟩, 10, 0⟩ : TimeRotatingWriter).Write 10 11 [65]).w =
      (⟨⟨some "rb", 4, none, none⟩, 10, 0⟩ : TimeRotatingWriter) ∧
     (((⟨⟨some "rb", 4, none, none⟩, 10, 0⟩ : TimeRotatingWriter).Write 10 11 [65]).w.Write
        25 26 [66]).trace.count SinkOp.rotate = 1) :=
  ⟨by decide, by decide, rfl, rfl, by decide,
   write_preserving_on_rotation_failure ⟨⟨some "rb", 4, none, none⟩, 10, 0⟩ 10 11 25 26
     [65] [66] "rb" (by decide) (by decide) rfl rfl (by decide)⟩

/-- C3: when rotation is due and both `rotate` and the fallback write
fail, `Write` returns zero bytes and a single combined error whose text
contains both the write-failure message and the rotation-failure
message. -/
theorem write_double_fault
    (w : TimeRotatingWriter) (now₁ now₂ : Int) (p : List Nat)
    (rerr werr : String)
    (hpos : w.rotationTime > 0)
    (hdue : now₁ - w.lastRotation ≥ w.rotationTime)
    (hrot : w.logger.rotateErr = some rerr)
    (hwr : w.logger.writeErr = some werr) :
    (w.Write now₁ now₂ p).n = 0 ∧
    (w.Write now₁ now₂ p).err = some (writeAfterRotateMsg werr rerr) ∧
    (∃ s t, writeAfterRotateMsg werr rerr = s ++ (werr ++ t)) ∧
    (∃ s t, writeAfterRotateMsg werr rerr = s ++ (rerr ++ t)) := by
  have hcond : w.rotationTime > 0 ∧ now₁ - w.lastRotation ≥ w.rotationTime := ⟨hpos, hdue⟩
  refine ⟨?_, ?_, ⟨"ошибка записи после ошибки ротации: ",
      " (ошибка ротации: " ++ (rerr ++ ")"), rfl⟩,
    ⟨"ошибка записи после ошибки ротации: " ++ (werr ++ " (ошибка ротации: "), ")", ?_⟩⟩
  · simp [TimeRotatingWriter.Write, hcond, hrot, hwr]
  · simp [TimeRotatingWriter.Write, hcond, hrot, hwr]
  · simp only [writeAfterRotateMsg, String.append_assoc]

/-- Witness for C3: rotate fails with "rb", the fallback write fails with
"wb"; the call returns 0 bytes and the combined message containing both. -/
theorem write_double_fault_witness :
    ((⟨⟨some "rb", 4, some "wb", none⟩, 10, 0⟩ : TimeRotatingWriter).rotationTime > 0) ∧
    ((10 : Int) - (⟨⟨some "rb", 4, some "wb", none⟩, 10, 0⟩ : TimeRotatingWriter).lastRotation ≥
      (⟨⟨some "rb", 4, some "wb", none⟩, 10, 0⟩ : TimeRotatingWriter).rotationTime) ∧
    ((⟨⟨some "rb", 4, some "wb", none⟩, 10, 0⟩ : TimeRotatingWriter).logger.rotateErr =
      some "rb") ∧
    ((⟨⟨some "rb", 4, some "wb", none⟩, 10, 0⟩ : TimeRotatingWriter).logger.writeErr =
      some "wb") ∧
    (((⟨⟨some "rb", 4, some "wb", none⟩, 10, 0⟩ : TimeRotatingWriter).Write 10 11 [65]).n = 0 ∧
     ((⟨⟨some "rb", 4, some "wb", none⟩, 10, 0⟩ : TimeRotatingWriter).Write 10 11 [65]).err =
      some (writeAfterRotateMsg "wb" "rb") ∧
     (∃ s t, writeAfterRotateMsg "wb" "rb" = s ++ ("wb" ++ t)) ∧
     (∃ s t, writeAfterRotateMsg "wb" "rb" = s ++ ("rb" ++ t))) :=
  ⟨by decide, by decide, rfl, rfl,
   write_double_fault ⟨⟨some "rb", 4, some "wb", none⟩, 10, 0⟩ 10 11 [65] "rb" "wb"
     (by decide) (by decide) rfl rfl⟩

/-- C5: provided the clock readings are ordered (`lastRotation` not in the
future at the call and the second reading not earlier than the first),
`Write` never decreases `lastRotation` and never moves it past the current
time; a successful rotation sets it exactly to the clock reading taken at
the update. -/
theorem lastRotation_monotone
    (w : TimeRotatingWriter) (now₁ now₂ : Int) (p : List Nat)
    (hpast : w.lastRotation ≤ now₁) (hclock : now₁ ≤ now₂) :
    w.lastRotation ≤ (w.Write now₁ now₂ p).w.lastRotation ∧
    (w.Write now₁ now₂ p).w.lastRotation ≤ now₂ ∧
    ((w.Write now₁ now₂ p).w.lastRotation = w.lastRotation ∨
     (w.Write now₁ now₂ p).w.lastRotation = now₂) := by
  unfold TimeRotatingWriter.Write
  split
  · cases hr : w.logger.rotateErr with
    | some rerr => cases hw : w.logger.writeErr <;> simp <;> omega
    | none => simp; omega
  · simp; omega

/-- Witness for C5: interval 10, last rotation at 0, rotation due at time
12, updated at time 13. -/
theorem lastRotation_monotone_witness :
    ((⟨⟨none, 3, none, none⟩, 10, 0⟩ : TimeRotatingWriter).lastRotation ≤ (12 : Int)) ∧
    ((12 : Int) ≤ (13 : Int)) ∧
    ((⟨⟨none, 3, none, none⟩, 10, 0⟩ : TimeRotatingWriter).lastRotation ≤
      ((⟨⟨none, 3, none, none⟩, 10, 0⟩ : TimeRotatingWriter).Write 12 13 [97]).w.lastRotation ∧
     ((⟨⟨none, 3, none, none⟩, 10, 0⟩ : TimeRotatingWriter).Write 12 13 [97]).w.lastRotation ≤
      (13 : Int) ∧
     (((⟨⟨none, 3, none, none⟩, 10, 0⟩ : TimeRotatingWriter).Write 12 13 [97]).w.lastRotation =
        (⟨⟨none, 3, none, none⟩, 10, 0⟩ : TimeRotatingWriter).lastRotation ∨
      ((⟨⟨none, 3, none, none⟩, 10, 0⟩ : TimeRotatingWriter).Write 12 13 [97]).w.lastRotation =
        (13 : Int))) :=
  ⟨by decide, by decide,
   lastRotation_monotone ⟨⟨none, 3, none, none⟩, 10, 0⟩ 12 13 [97] (by decide) (by decide)⟩

/-- C10: frame property of both `Write` variants: the configured interval
and the wrapped sink are unchanged on every exit path, and `lastRotation`
either keeps its value or is set to the update-time clock reading, the
latter only when `rotate` was invoked (it appears in the trace) and
succeeded. -/
theorem write_frame (w : TimeRotatingWriter) (now₁ now₂ : Int) (p : List Nat) :
    ((w.Write now₁ now₂ p).w.rotationTime = w.rotationTime ∧
     (w.Write now₁ now₂ p).w.logger = w.logger ∧
     ((w.Write now₁ now₂ p).w.lastRotation = w.lastRotation ∨
      (w.logger.rotateErr = none ∧
       (w.Write now₁ now₂ p).trace.count SinkOp.rotate = 1 ∧
       (w.Write now₁ now₂ p).w.lastRotation = now₂))) ∧
    ((w.WriteEarly now₁ now₂ p).w.rotationTime = w.rotationTime ∧
     (w.WriteEarly now₁ now₂ p).w.logger = w.logger ∧
     ((w.WriteEarly now₁ now₂ p).w.lastRotation = w.lastRotation ∨
      (w.logger.rotateErr = none ∧
       (w.WriteEarly now₁ now₂ p).trace.count SinkOp.rotate = 1 ∧
       (w.WriteEarly now₁ now₂ p).w.lastRotation = now₂))) := by
  constructor
  · unfold TimeRotatingWriter.Write
    split
    · cases hr : w.logger.rotateErr with
      | some rerr => cases hw : w.logger.writeErr <;> simp
      | none => simp
    · simp
  · unfold TimeRotatingWriter.WriteEarly
    split
    · cases hr : w.logger.rotateErr with
      | some rerr => simp
      | none => simp
    · simp

/-- With a non-positive interval, a sequence of guarded `Write` calls
leaves the writer unchanged and never puts a rotate on the sink trace. -/
theorem runWrites_inert (calls : List (Int × Int × List Nat))
    (w : TimeRotatingWriter) (h : w.rotationTime ≤ 0) :
    (runWrites w calls).1 = w ∧
    (runWrites w calls).2.count SinkOp.rotate = 0 := by
  induction calls with
  | nil => simp [runWrites]
  | cons c rest ih =>
    obtain ⟨n₁, n₂, p⟩ := c
    have hw := Write_inert w n₁ n₂ p h
    simp [runWrites, hw, ih.1, ih.2]

/-- C4 counterexample: the early `Write` variant (part_000 lines 26-38),
on a writer configured with interval 0, invokes `rotate` on its very first
call, because its condition `time.Since(lastRotation) >= rotationTime`
lacks the positivity guard. -/
theorem disabled_rotation_counterexample :
    (TimeRotatingWriter.WriteEarly ⟨⟨none, 3, none, none⟩, 0, 0⟩ 0 0 [97]).trace.count
      SinkOp.rotate ≠ 0 := by decide

/-- C4 (amended): for the guarded `Write` (part_000 lines 71-96) with
interval <= 0, no sequence of calls ever invokes `rotate` or changes the
writer state, and the outcome of a call does not depend on
`lastRotation`. -/
theorem disabled_rotation_inert
    (w : TimeRotatingWriter) (calls : List (Int × Int × List Nat))
    (now₁ now₂ l : Int) (p : List Nat)
    (h : w.rotationTime ≤ 0) :
    (runWrites w calls).2.count SinkOp.rotate = 0 ∧
    (runWrites w calls).1 = w ∧
    (TimeRotatingWriter.Write { w with lastRotation := l } now₁ now₂ p).n =
      (w.Write now₁ now₂ p).n ∧
    (TimeRotatingWriter.Write { w with lastRotation := l } now₁ now₂ p).err =
      (w.Write now₁ now₂ p).err ∧
    (TimeRotatingWriter.Write { w with lastRotation := l } now₁ now₂ p).trace =
      (w.Write now₁ now₂ p).trace := by
  have h' : ({ w with lastRotation := l } : TimeRotatingWriter).rotationTime ≤ 0 := h
  have hw1 := Write_inert { w with lastRotation := l } now₁ now₂ p h'
  have hw2 := Write_inert w now₁ now₂ p h
  have hr := runWrites_inert calls w h
  exact ⟨hr.2, hr.1, by rw [hw1, hw2], by rw [hw1, hw2], by rw [hw1, hw2]⟩

/-- Witness for the amended C4 at a concrete writer with interval 0, one
recorded call, and two different `lastRotation` values. -/
theorem disabled_rotation_inert_witness :
    ((⟨⟨none, 3, none, none⟩, 0, 0⟩ : TimeRotatingWriter).rotationTime ≤ 0) ∧
    ((runWrites ⟨⟨none, 3, none, none⟩, 0, 0⟩ [(5, 6, [97])]).2.count SinkOp.rotate = 0 ∧
     (runWrites ⟨⟨none, 3, none, none⟩, 0, 0⟩ [(5, 6, [97])]).1 =
       (⟨⟨none, 3, none, none⟩, 0, 0⟩ : TimeRotatingWriter) ∧
     (TimeRotatingWriter.Write
        { (⟨⟨none, 3, none, none⟩, 0, 0⟩ : TimeRotatingWriter) with lastRotation := 100 }
        5 6 [98]).n =
       ((⟨⟨none, 3, none, none⟩, 0, 0⟩ : TimeRotatingWriter).Write 5 6 [98]).n ∧
     (TimeRotatingWriter.Write
        { (⟨⟨none, 3, none, none⟩, 0, 0⟩ : TimeRotatingWriter) with lastRotation := 100 }
        5 6 [98]).err =
       ((⟨⟨none, 3, none, none⟩, 0, 0⟩ : TimeRotatingWriter).Write 5 6 [98]).err ∧
     (TimeRotatingWriter.Write
        { (⟨⟨none, 3, none, none⟩, 0, 0⟩ : TimeRotatingWriter) with lastRotation := 100 }
        5 6 [98]).trace =
       ((⟨⟨none, 3, none, none⟩, 0, 0⟩ : TimeRotatingWriter).Write 5 6 [98]).trace) :=
  ⟨by decide,
   disabled_rotation_inert ⟨⟨none, 3, none, none⟩, 0, 0⟩ [(5, 6, [97])] 5 6 100 [98]
     (by decide)⟩

/-- C9 counterexample: on a writer whose rotate fails, with rotation due,
the two `Write` variants return different byte counts (the early one drops
the write and returns 0, the final one performs the fallback write). -/
theorem write_variants_differ :
    (TimeRotatingWriter.WriteEarly ⟨⟨some "rb", 3, none, none⟩, 2, 0⟩ 5 6 [97]).n ≠
    (TimeRotatingWriter.Write ⟨⟨some "rb", 3, none, none⟩, 2, 0⟩ 5 6 [97]).n := by
  decide

/-- C9 (amended): the two `Write` variants coincide — same returned pair,
same final state, same sink trace — whenever the configured interval is
positive and the sink's rotate succeeds. -/
theorem write_variants_agree
    (w : TimeRotatingWriter) (now₁ now₂ : Int) (p : List Nat)
    (hpos : w.rotationTime > 0)
    (hrot : w.logger.rotateErr = none) :
    w.WriteEarly now₁ now₂ p = w.Write now₁ now₂ p := by
  by_cases hdue : now₁ - w.lastRotation ≥ w.rotationTime
  · have hcond : w.rotationTime > 0 ∧ now₁ - w.lastRotation ≥ w.rotationTime := ⟨hpos, hdue⟩
    simp [TimeRotatingWriter.Write, TimeRotatingWriter.WriteEarly, hcond, hdue, hrot]
  · have hcond : ¬ (w.rotationTime > 0 ∧ now₁ - w.lastRotation ≥ w.rotationTime) := by
      intro hc
      exact hdue hc.2
    simp [TimeRotatingWriter.Write, TimeRotatingWriter.WriteEarly, hcond, hdue]

/-- Witness for the amended C9 at a concrete writer with positive interval
and a succeeding rotate. -/
theorem write_variants_agree_witness :
    ((⟨⟨none, 3, none, none⟩, 2, 0⟩ : TimeRotatingWriter).rotationTime > 0) ∧
    ((⟨⟨none, 3, none, none⟩, 2, 0⟩ : TimeRotatingWriter).logger.rotateErr = none) ∧
    ((⟨⟨none, 3, none, none⟩, 2, 0⟩ : TimeRotatingWriter).WriteEarly 5 6 [97] =
     (⟨⟨none, 3, none, none⟩, 2, 0⟩ : TimeRotatingWriter).Write 5 6 [97]) :=
  ⟨by decide, rfl,
   write_variants_agree ⟨⟨none, 3, none, none⟩, 2, 0⟩ 5 6 [97] (by decide) rfl⟩
